import Mathlib

/-!
# Verification of the PatchOps vulnerability impact & patch-planning engine

A shallow embedding, in Lean 4, of the core pipeline of the
`patchops-demo-vulnerable` repository:

* `src/patchops/src/data-pipeline/package-analyzer.ts`
  (`PackageAnalyzer`, `VulnerabilityMonitor`),
* the patch-plan analyzer (`PatchAnalyzer`, `src/patch-logic/analyzer.ts`),
* the shared `semver` library calls those files make
  (`satisfies`, `valid`, `inc`, `major`).

Conventions of the embedding:

* JavaScript numbers are modelled as `ℚ` (the values involved are small
  decimals); `Math.round` is Mathlib's `round` (both are `⌊x + 1/2⌋`),
  `Math.min` is `min` on `ℤ`.
* Optional TypeScript fields are `Option`; JavaScript truthiness of an
  optional number is `some c` with `c ≠ 0`, of an optional boolean is
  `some true`, of an optional string/list is `some` of a value (a `none`
  stands for `undefined` or any other falsy value).
* `async` functions whose awaited collaborators matter are modelled as pure
  functions taking the collaborator outcome as an explicit argument;
  functions that can `throw` past their caller return `Option`/`Except`.
* Wall-clock timestamps (`new Date().toISOString()`, `analysisTimeMs`) are
  threaded as an opaque `now : String` parameter or omitted.
* String manipulation is implemented over `List Char` (`String.data`) so
  that every definition evaluates by kernel reduction.
-/

/-! ## Character-list string utilities -/

def isSpaceCh (c : Char) : Bool := c = ' ' || c = '\t' || c = '\n' || c = '\r'

def trimChars (cs : List Char) : List Char :=
  ((cs.dropWhile isSpaceCh).reverse.dropWhile isSpaceCh).reverse

/-- Split a character list on a single-character separator (semantics of
`String.splitOn` with a one-character separator). -/
def splitOnCh (sep : Char) : List Char → List (List Char)
  | [] => [[]]
  | c :: cs =>
    if c = sep then [] :: splitOnCh sep cs
    else
      match splitOnCh sep cs with
      | [] => [[c]]
      | g :: gs => (c :: g) :: gs

/-- Split a character list on the two-character separator `||`
(semantics of `String.splitOn "||"`). -/
def splitOnOrOr : List Char → List (List Char)
  | [] => [[]]
  | '|' :: '|' :: cs => [] :: splitOnOrOr cs
  | c :: cs =>
    match splitOnOrOr cs with
    | [] => [[c]]
    | g :: gs => (c :: g) :: gs

def charsStartWith : List Char → List Char → Bool
  | [], _ => true
  | _ :: _, [] => false
  | p :: ps, c :: cs => p = c && charsStartWith ps cs

/-- JavaScript string truthiness: a string is falsy iff it is empty. -/
def strIsEmpty (s : String) : Bool := s.data.isEmpty

/-- `Array.prototype.join(sep)` over a list of strings. -/
def joinSep (sep : String) : List String → String
  | [] => ""
  | [x] => x
  | x :: xs => x ++ sep ++ joinSep sep xs

/-! ## The `semver` library model

`package-analyzer.ts` and `analyzer.ts` call the npm `semver` package.
The facts of that library that the repository's behaviour rests on:

* `semver.satisfies(version, range)` never throws: it wraps range parsing
  in a `try { new Range(range) } catch { return false }` and
  `Range.test` returns `false` when the version string does not parse.
* `semver.valid(v)` is non-null exactly when `v` parses as a semver
  version (optional leading `v`, three dot-separated numeric components
  without leading zeros, optional `-prerelease` and `+build`).
* `semver.inc(v, 'patch')` is null on an unparseable version; on a
  prerelease of a patch version it drops the prerelease, otherwise it
  bumps the patch component and clears the prerelease.
* `semver.major(v)` throws on an unparseable version.

The range grammar modelled here is the comparator subset actually used by
the repository and its data (`>=`, `>`, `<=`, `<`, `=`, `^`, `~`, bare
versions, `*`/`x`, space-separated conjunction, `||` disjunction); a range
outside this subset parses to `none`, and `satisfies` is then `false`,
exactly as node-semver returns `false` on a range it cannot parse.
-/

namespace Semver

/-- A parsed semantic version: `major.minor.patch` plus prerelease
identifiers (build metadata is validated then discarded, as node-semver
ignores it for comparison). -/
structure SemVer where
  major : Nat
  minor : Nat
  patch : Nat
  prerelease : List String
deriving DecidableEq, Repr

def isDigitCh (c : Char) : Bool := '0' ≤ c && c ≤ '9'

def isIdentCh (c : Char) : Bool :=
  isDigitCh c || ('a' ≤ c && c ≤ 'z') || ('A' ≤ c && c ≤ 'Z') || c = '-'

def digitsToNat (cs : List Char) : Nat :=
  cs.foldl (fun n c => n * 10 + (c.toNat - 48)) 0

/-- A semver numeric identifier: nonempty digits, no leading zero. -/
def parseNumericIdent (cs : List Char) : Option Nat :=
  if cs.isEmpty then none
  else if !cs.all isDigitCh then none
  else if cs.length > 1 && cs.head? = some '0' then none
  else some (digitsToNat cs)

/-- A prerelease identifier: nonempty, alphanumeric/hyphen; all-digit
identifiers must not have a leading zero. -/
def validPrereleaseIdent (cs : List Char) : Bool :=
  !cs.isEmpty && cs.all isIdentCh &&
    (!cs.all isDigitCh || cs.length = 1 || cs.head? ≠ some '0')

def validBuild (cs : List Char) : Bool :=
  (splitOnCh '.' cs).all (fun i => !i.isEmpty && i.all isIdentCh)

/-- Split a character list at the first occurrence of a character. -/
def splitAtFirst (sep : Char) : List Char → List Char × Option (List Char)
  | [] => ([], none)
  | c :: cs =>
    if c = sep then ([], some cs)
    else
      match splitAtFirst sep cs with
      | (pre, rest) => (c :: pre, rest)

def parseMainVersion (cs : List Char) : Option (Nat × Nat × Nat) :=
  match splitOnCh '.' cs with
  | [a, b, c] =>
    match parseNumericIdent a, parseNumericIdent b, parseNumericIdent c with
    | some x, some y, some z => some (x, y, z)
    | _, _, _ => none
  | _ => none

def parsePrerelease (cs : List Char) : Option (List String) :=
  let ids := splitOnCh '.' cs
  if ids.all validPrereleaseIdent then some (ids.map String.mk) else none

/-- Model of node-semver version parsing (`new SemVer(v)` / `semver.valid`):
trims whitespace, allows one leading `v`, then
`major.minor.patch[-prerelease][+build]`. -/
def parseSemVer (s0 : String) : Option SemVer :=
  let s1 := trimChars s0.data
  let s := match s1 with
    | 'v' :: rest => rest
    | other => other
  let pb := splitAtFirst '+' s
  let buildOk := match pb.2 with
    | some b => validBuild b
    | none => true
  if !buildOk then none
  else
    let mp := splitAtFirst '-' pb.1
    match parseMainVersion mp.1 with
    | none => none
    | some v =>
      match mp.2 with
      | none => some ⟨v.1, v.2.1, v.2.2, []⟩
      | some p =>
        match parsePrerelease p with
        | some ids => some ⟨v.1, v.2.1, v.2.2, ids⟩
        | none => none

def renderSemVer (v : SemVer) : String :=
  toString v.major ++ "." ++ toString v.minor ++ "." ++ toString v.patch ++
    (if v.prerelease.isEmpty then ""
     else "-" ++ joinSep "." v.prerelease)

def cmpNat (a b : Nat) : Ordering :=
  if a < b then .lt else if a = b then .eq else .gt

def cmpCharList : List Char → List Char → Ordering
  | [], [] => .eq
  | [], _ :: _ => .lt
  | _ :: _, [] => .gt
  | a :: as, b :: bs =>
    if a < b then .lt
    else if b < a then .gt
    else cmpCharList as bs

/-- node-semver `compareIdentifiers`: numeric identifiers compare
numerically and sort below alphanumeric ones. -/
def cmpPreIdent (a b : String) : Ordering :=
  match parseNumericIdent a.data, parseNumericIdent b.data with
  | some x, some y => cmpNat x y
  | some _, none => .lt
  | none, some _ => .gt
  | none, none => cmpCharList a.data b.data

def cmpPrereleaseList : List String → List String → Ordering
  | [], [] => .eq
  | [], _ :: _ => .lt
  | _ :: _, [] => .gt
  | a :: as, b :: bs =>
    match cmpPreIdent a b with
    | .eq => cmpPrereleaseList as bs
    | o => o

/-- A release sorts above any prerelease of the same version tuple. -/
def cmpPrerelease (a b : List String) : Ordering :=
  match a, b with
  | [], [] => .eq
  | [], _ :: _ => .gt
  | _ :: _, [] => .lt
  | _ :: _, _ :: _ => cmpPrereleaseList a b

def cmpSemVer (a b : SemVer) : Ordering :=
  match cmpNat a.major b.major with
  | .eq =>
    match cmpNat a.minor b.minor with
    | .eq =>
      match cmpNat a.patch b.patch with
      | .eq => cmpPrerelease a.prerelease b.prerelease
      | o => o
    | o => o
  | o => o

inductive CompOp
  | lt
  | le
  | gt
  | ge
  | eq
deriving DecidableEq, Repr

structure Comparator where
  op : CompOp
  ver : SemVer
deriving DecidableEq, Repr

def satisfiesComp (c : Comparator) (v : SemVer) : Bool :=
  match c.op, cmpSemVer v c.ver with
  | .lt, .lt => true
  | .le, .lt => true
  | .le, .eq => true
  | .gt, .gt => true
  | .ge, .gt => true
  | .ge, .eq => true
  | .eq, .eq => true
  | _, _ => false

/-- `^` upper bound: next breaking version. -/
def nextBreaking (v : SemVer) : SemVer :=
  if v.major > 0 then ⟨v.major + 1, 0, 0, []⟩
  else if v.minor > 0 then ⟨0, v.minor + 1, 0, []⟩
  else ⟨0, 0, v.patch + 1, []⟩

def parseVersionChars (cs : List Char) : Option SemVer := parseSemVer (String.mk cs)

def parseRangeToken (t : List Char) : Option (List Comparator) :=
  if t = ['*'] || t = ['x'] || t = ['X'] then some []
  else if charsStartWith ['>', '='] t then
    (parseVersionChars (t.drop 2)).map (fun v => [⟨.ge, v⟩])
  else if charsStartWith ['<', '='] t then
    (parseVersionChars (t.drop 2)).map (fun v => [⟨.le, v⟩])
  else if charsStartWith ['>'] t then
    (parseVersionChars (t.drop 1)).map (fun v => [⟨.gt, v⟩])
  else if charsStartWith ['<'] t then
    (parseVersionChars (t.drop 1)).map (fun v => [⟨.lt, v⟩])
  else if charsStartWith ['='] t then
    (parseVersionChars (t.drop 1)).map (fun v => [⟨.eq, v⟩])
  else if charsStartWith ['^'] t then
    (parseVersionChars (t.drop 1)).map (fun v => [⟨.ge, v⟩, ⟨.lt, nextBreaking v⟩])
  else if charsStartWith ['~'] t then
    (parseVersionChars (t.drop 1)).map
      (fun v => [⟨.ge, v⟩, ⟨.lt, ⟨v.major, v.minor + 1, 0, []⟩⟩])
  else (parseVersionChars t).map (fun v => [⟨.eq, v⟩])

def parseComparatorSet (cs : List Char) : Option (List Comparator) :=
  let tokens := (splitOnCh ' ' (trimChars cs)).filter (fun t => !t.isEmpty)
  if tokens.isEmpty then some []
  else (tokens.mapM parseRangeToken).map List.flatten

/-- A range is a `||`-disjunction of comparator sets. -/
def parseRange (r : String) : Option (List (List Comparator)) :=
  (splitOnOrOr r.data).mapM parseComparatorSet

/-- node-semver `Range.test`: all comparators must hold, and a prerelease
version only satisfies a set that explicitly mentions a prerelease of the
same `[major, minor, patch]` tuple. -/
def testComparatorSet (cs : List Comparator) (v : SemVer) : Bool :=
  cs.all (fun c => satisfiesComp c v) &&
    (v.prerelease.isEmpty ||
      cs.any (fun c => !c.ver.prerelease.isEmpty &&
        c.ver.major == v.major && c.ver.minor == v.minor && c.ver.patch == v.patch))

/-- `semver.satisfies(version, range)`. Total: node-semver returns `false`
(it does **not** throw) both when the range fails to parse (caught inside
`satisfies`) and when the version fails to parse (caught inside
`Range.test`). -/
def satisfies (version range : String) : Bool :=
  match parseRange range, parseSemVer version with
  | some sets, some v => sets.any (fun cs => testComparatorSet cs v)
  | _, _ => false

/-- `semver.valid(v) !== null`. -/
def valid (s : String) : Bool := (parseSemVer s).isSome

/-- `semver.inc(v, 'patch')` on a parsed version. -/
def incPatch (v : SemVer) : SemVer :=
  if v.prerelease.isEmpty then ⟨v.major, v.minor, v.patch + 1, []⟩
  else ⟨v.major, v.minor, v.patch, []⟩

end Semver

/-! ## Data model (`src/patchops/src/types/data-pipeline.ts`)

Fields not touched by any modelled function (`description`, `references`,
`source`, `discoveredAt`, `lockfileEntry`) are omitted. Severity is the
four-value union type of the source. -/

inductive Severity
  | critical
  | high
  | medium
  | low
deriving DecidableEq, Repr

def severityUpper : Severity → String
  | .critical => "CRITICAL"
  | .high => "HIGH"
  | .medium => "MEDIUM"
  | .low => "LOW"

structure VulnerabilityIntelligence where
  id : String
  packageName : String
  ecosystem : String
  severity : Severity
  cvssScore : Option ℚ
  affectedVersions : String
  fixedVersions : String
  isZeroDay : Bool
  exploitAvailable : Option Bool
  isKEV : Option Bool
deriving DecidableEq

structure PackageInfo where
  name : String
  version : String
  ecosystem : String
  isDirect : Bool
  isTransitive : Bool
  manifestFile : String
deriving DecidableEq

structure PackageUsage where
  packageName : String
  isImported : Bool
  importFiles : List String
  importPatterns : List String
  usageCount : Nat
  lastAnalyzed : String
deriving DecidableEq

inductive ImpactLevel
  | CRITICAL_HIT
  | LOW_PRIORITY
deriving DecidableEq, Repr

structure HitEvidence where
  manifestProof : String
  usageProof : List String
  riskFactors : List String
deriving DecidableEq

structure CriticalHit where
  vulnerability : VulnerabilityIntelligence
  packageInfo : PackageInfo
  usage : PackageUsage
  impactLevel : ImpactLevel
  threatScore : ℤ
  evidence : HitEvidence
deriving DecidableEq

inductive PackageManager
  | npm
  | pip
  | maven
  | gradle
deriving DecidableEq, Repr

/-- Render a non-negative rational the way JavaScript prints the
corresponding number, for values with a short terminating decimal
expansion (all CVSS scores are tenths). Used only inside evidence strings. -/
def decDigits : Nat → Nat → Nat → List Nat
  | 0, _, _ => []
  | _ + 1, 0, _ => []
  | fuel + 1, r, d => ((r * 10) / d) :: decDigits fuel ((r * 10) % d) d

def qToString (q : ℚ) : String :=
  let sign := if q < 0 then "-" else ""
  let n := q.num.natAbs
  let d := q.den
  let frac := decDigits 12 (n % d) d
  sign ++ toString (n / d) ++
    (if frac.isEmpty then "" else "." ++ joinSep "" (frac.map toString))

/-! ## `PackageAnalyzer` (`src/patchops/src/data-pipeline/package-analyzer.ts`)

The class methods are pure apart from the GitHub collaborator; the
collaborator-provided data (parsed manifest entries) enters as explicit
arguments. Logging is omitted. -/

namespace PackageAnalyzer

/-- `version.replace(/^[^0-9]*/, '')` — strip every leading non-digit. -/
def cleanVersionStr (version : String) : String :=
  String.mk (version.data.dropWhile (fun c => !Semver.isDigitCh c))

/-- `isVersionAffected` (package-analyzer.ts lines 363–372).

The source wraps `semver.satisfies(cleanVersion, affectedRange)` in
`try { ... } catch { return true; // Err on the side of caution }`, but
`semver.satisfies` never throws — it returns `false` on any unparseable
version or range — so the `catch` is dead code and the function is exactly
the `satisfies` call. -/
def isVersionAffected (version affectedRange : String) : Bool :=
  Semver.satisfies (cleanVersionStr version) affectedRange

/-- The hard-coded allow-list inside `searchForImports`
(package-analyzer.ts line 261). -/
def knownPackages : List String := ["axios", "lodash", "express", "react", "vue"]

structure SearchResult where
  found : Bool
  files : List String
  patterns : List String
  count : Nat
deriving DecidableEq

/-- `searchForImports` (lines 249–278): the simulated search consults only
the allow-list; the repository context and the file pattern it receives are
ignored, and no file content is ever read. -/
def searchForImports (packageName : String) : SearchResult :=
  if knownPackages.contains packageName then
    { found := true
      files := ["src/index.js", "src/utils/" ++ packageName ++ ".js"]
      patterns := ["import " ++ packageName,
                   "require(\x27" ++ packageName ++ "\x27)"]
      count := 2 }
  else
    { found := false, files := [], patterns := [], count := 0 }

/-- `getSourceFilePatterns` (lines 283–295); the `default` arm of the
source's `switch` is unreachable for the four-value union type. -/
def getSourceFilePatterns : PackageManager → List String
  | .npm => ["**/*.js", "**/*.ts", "**/*.jsx", "**/*.tsx", "**/*.vue"]
  | .pip => ["**/*.py"]
  | .maven => ["**/*.java", "**/*.kt"]
  | .gradle => ["**/*.java", "**/*.kt"]

/-- `[...new Set(xs)]`: deduplicate keeping first occurrences. -/
def dedupFirstAux (seen : List String) : List String → List String
  | [] => []
  | x :: xs =>
    if seen.contains x then dedupFirstAux seen xs
    else x :: dedupFirstAux (seen ++ [x]) xs

def dedupFirst (l : List String) : List String := dedupFirstAux [] l

/-- `analyzePackageImports` (lines 197–244): loop over the source-file
patterns, accumulating files, patterns and counts from `searchForImports`;
`isImported` is `importFiles.length > 0` (computed before deduplication). -/
def analyzePackageImports (packageName : String) (pm : PackageManager)
    (now : String) : PackageUsage :=
  let acc := (getSourceFilePatterns pm).foldl
    (fun (acc : List String × List String × Nat) (_pat : String) =>
      let r := searchForImports packageName
      if r.found then (acc.1 ++ r.files, acc.2.1 ++ r.patterns, acc.2.2 + r.count)
      else acc)
    ([], [], 0)
  { packageName := packageName
    isImported := !acc.1.isEmpty
    importFiles := dedupFirst acc.1
    importPatterns := dedupFirst acc.2.1
    usageCount := acc.2.2
    lastAnalyzed := now }

/-- `matchVulnerablePackages` (lines 340–358): the nested loop over
packages and vulnerabilities, keeping pairs with equal name and ecosystem
whose version is in the affected range. -/
def matchVulnerablePackages (packages : List PackageInfo)
    (vulnerabilities : List VulnerabilityIntelligence) :
    List (PackageInfo × VulnerabilityIntelligence) :=
  packages.foldl
    (fun acc pkg =>
      acc ++ (vulnerabilities.filter (fun vuln =>
        pkg.name == vuln.packageName && pkg.ecosystem == vuln.ecosystem &&
          isVersionAffected pkg.version vuln.affectedVersions)).map
        (fun vuln => (pkg, vuln)))
    []

/-- Severity-tier base scores of `calculateThreatScore`
(line 384: `{ critical: 90, high: 70, medium: 50, low: 20 }`; the `|| 50`
fallback is unreachable for the union type). -/
def severityBaseScore : Severity → ℚ
  | .critical => 90
  | .high => 70
  | .medium => 50
  | .low => 20

/-- `Math.min(Math.round(score), 100)`. -/
def clampRound (q : ℚ) : ℤ := min (round q) 100

/-- The raw (pre-round, pre-clamp) score of `calculateThreatScore`
(lines 377–411). `if (vuln.cvssScore)` is JavaScript-truthy: a present
score of `0` falls through to the severity table. -/
def threatScoreRaw (vuln : VulnerabilityIntelligence) (pkg : PackageInfo)
    (usage : PackageUsage) : ℚ :=
  let base : ℚ :=
    match vuln.cvssScore with
    | some c => if c = 0 then severityBaseScore vuln.severity else c * 10
    | none => severityBaseScore vuln.severity
  let s1 : ℚ :=
    if usage.isImported then base * 1.5 + (usage.usageCount : ℚ) * 5
    else base * 0.3
  let s2 : ℚ := if pkg.isDirect then s1 * 1.2 else s1
  let s3 : ℚ := if vuln.isZeroDay then s2 * 1.3 else s2
  if vuln.exploitAvailable = some true then s3 * 1.4 else s3

/-- `calculateThreatScore` (lines 377–412). -/
def calculateThreatScore (vuln : VulnerabilityIntelligence) (pkg : PackageInfo)
    (usage : PackageUsage) : ℤ :=
  clampRound (threatScoreRaw vuln pkg usage)

/-- `generateManifestProof` (lines 417–419). -/
def generateManifestProof (pkg : PackageInfo) : String :=
  "\"" ++ pkg.name ++ "\": \"" ++ pkg.version ++ "\" // in " ++ pkg.manifestFile

/-- `generateRiskFactors` (lines 424–456). -/
def generateRiskFactors (vuln : VulnerabilityIntelligence) (pkg : PackageInfo)
    (usage : PackageUsage) : List String :=
  (if usage.isImported then
     ["Actively imported in " ++ toString usage.importFiles.length ++ " file(s)"]
   else []) ++
  [if pkg.isDirect then "Direct dependency" else "Transitive dependency"] ++
  (if vuln.isZeroDay then ["Recently discovered (potential zero-day)"] else []) ++
  (if vuln.exploitAvailable = some true then ["Exploit code available"] else []) ++
  (if vuln.isKEV = some true then ["Known Exploited Vulnerability (KEV)"] else []) ++
  [severityUpper vuln.severity ++ " severity"] ++
  (match vuln.cvssScore with
   | some c => if c ≠ 0 ∧ 7 ≤ c then ["High CVSS score (" ++ qToString c ++ ")"] else []
   | none => [])

/-- The `CriticalHit` object built in the loop of `findCriticalHits`
(lines 160–181). -/
def criticalHitFor (pr : PackageInfo × VulnerabilityIntelligence)
    (usage : PackageUsage) : CriticalHit :=
  { vulnerability := pr.2
    packageInfo := pr.1
    usage := usage
    impactLevel := if usage.isImported then .CRITICAL_HIT else .LOW_PRIORITY
    threatScore := calculateThreatScore pr.2 pr.1 usage
    evidence :=
      { manifestProof := generateManifestProof pr.1
        usageProof := usage.importFiles
        riskFactors := generateRiskFactors pr.2 pr.1 usage } }

/-- The hit-construction loop of `findCriticalHits` (lines 160–181):
for each vulnerable pair, look up its usage record by package name and
push a `CriticalHit`; pairs without a usage record are skipped. -/
def buildCriticalHits (pairs : List (PackageInfo × VulnerabilityIntelligence))
    (usages : List PackageUsage) : List CriticalHit :=
  pairs.foldl
    (fun acc pr =>
      match usages.find? (fun u => u.packageName == pr.1.name) with
      | none => acc
      | some usage => acc ++ [criticalHitFor pr usage])
    []

/-- `criticalHits.sort((a, b) => b.threatScore - a.threatScore)`:
insertion sort, descending by threat score. -/
def insertByScore (h : CriticalHit) : List CriticalHit → List CriticalHit
  | [] => [h]
  | x :: xs =>
    if x.threatScore ≤ h.threatScore then h :: x :: xs
    else x :: insertByScore h xs

def sortByThreatScoreDesc (l : List CriticalHit) : List CriticalHit :=
  l.foldr insertByScore []

/-- `analyzePackageUsage` (lines 99–133) on its success path: one usage
record per requested package name. -/
def analyzePackageUsage (packageNames : List String) (pm : PackageManager)
    (now : String) : List PackageUsage :=
  packageNames.map (fun n => analyzePackageImports n pm now)

/-- The pure core of `findCriticalHits` (lines 138–192), taking the parsed
manifest packages as input: match packages against vulnerabilities,
short-circuit to `[]` when nothing matches, otherwise analyze usage for the
matched packages, build the hits and sort them by descending score. -/
def findCriticalHitsCore (packages : List PackageInfo)
    (vulnerabilities : List VulnerabilityIntelligence) (pm : PackageManager)
    (now : String) : List CriticalHit :=
  let vulnerablePackages := matchVulnerablePackages packages vulnerabilities
  if vulnerablePackages.isEmpty then []
  else
    let packageNames := vulnerablePackages.map (fun vp => vp.1.name)
    let usageAnalysis := analyzePackageUsage packageNames pm now
    sortByThreatScoreDesc (buildCriticalHits vulnerablePackages usageAnalysis)

/-- The npm branch of `parseManifest` (lines 47–83) given the parsed
`dependencies` and `devDependencies` objects as association lists (the
lockfile branch is not modelled; the scenarios here configure no lockfile):
every entry becomes a direct `PackageInfo`, and the result is sorted by
name (`localeCompare`, which on the ASCII names involved is lexicographic
character order). -/
def insertByName (p : PackageInfo) : List PackageInfo → List PackageInfo
  | [] => [p]
  | x :: xs =>
    if Semver.cmpCharList p.name.data x.name.data = .gt then x :: insertByName p xs
    else p :: x :: xs

def sortPackagesByName (l : List PackageInfo) : List PackageInfo :=
  l.foldr insertByName []

def parseManifestPure (manifestPath : String)
    (deps devDeps : List (String × String)) : List PackageInfo :=
  sortPackagesByName ((deps ++ devDeps).map (fun e =>
    { name := e.1
      version := e.2
      ecosystem := "npm"
      isDirect := true
      isTransitive := false
      manifestFile := manifestPath }))

end PackageAnalyzer

/-! ## `PatchAnalyzer` (`src/patch-logic/analyzer.ts`)

The legacy `Vulnerability` / `ImpactEvidence` / `PatchPlan` shapes of
`src/patchops/src/types/index.ts`. `PatchPlan.metadata` is reduced to the
`llmModel` field that identifies the producing backend; `generatedAt` and
`analysisTimeMs` are wall-clock values and are omitted.

The optional reasoning (LLM) backend is modelled by an explicit
`LLMResponse` argument describing the outcome of the network call, and
`analyze`/`callLLM`/`generateMockAnalysis` return `Option` because
`generateMockAnalysis` calls `semver.major`, which throws on an
unparseable version string. -/

structure Vulnerability where
  id : String
  packageName : String
  currentVersion : String
  severity : Severity
  cvssScore : Option ℚ
  description : String
  affectedVersions : String
  fixedVersions : String
deriving DecidableEq

structure ImpactEvidence where
  isAffected : Bool
  reason : String
  importedInFiles : List String
  isDirectDependency : Bool
  isTransitiveDependency : Bool
deriving DecidableEq

structure PlanAnalysis where
  threatScore : ℤ
  threatRationale : String
  evidence : String
  recommendedVersion : String
  confidence : String
deriving DecidableEq

structure PlanMigration where
  breakingChanges : List String
  migrationSteps : List String
  testChecklist : List String
  rollbackPlan : String
deriving DecidableEq

structure PatchPlan where
  vulnerability : Vulnerability
  evidence : ImpactEvidence
  analysis : PlanAnalysis
  migration : PlanMigration
  llmModel : String
deriving DecidableEq

namespace PatchAnalyzer

/-- `analyzeImpact` (analyzer.ts lines 77–99). `isDirect` is the hard-coded
`true` of the source ("Simplified - would check lockfile in real
implementation"), so `isAffected = isImported || isDirect` is always
true. -/
def analyzeImpact (vulnerability : Vulnerability) (importedFiles : List String) :
    ImpactEvidence :=
  let isImported := !importedFiles.isEmpty
  let isDirect := true
  let reason :=
    if isImported then
      "Package is imported in " ++ toString importedFiles.length ++ " file(s): " ++
        joinSep ", " importedFiles
    else "Package is a dependency but not directly imported in source files"
  { isAffected := isImported || isDirect
    reason := reason
    importedInFiles := importedFiles
    isDirectDependency := isDirect
    isTransitiveDependency := !isDirect }

/-- The severity → approximate CVSS table of lines 115–120 (the `|| 5.0`
fallback is unreachable for the union type). -/
def severityApproxCvss : Severity → ℚ
  | .critical => 9.5
  | .high => 8
  | .medium => 5.5
  | .low => 2

/-- The raw (pre-scale, pre-round) score of the single-vulnerability
`calculateThreatScore` (lines 104–133). -/
def threatScoreRaw (vulnerability : Vulnerability) (evidence : ImpactEvidence) : ℚ :=
  let base : ℚ :=
    match vulnerability.cvssScore with
    | some c => if c = 0 then severityApproxCvss vulnerability.severity else c
    | none => severityApproxCvss vulnerability.severity
  if !evidence.isAffected then base * 0.3
  else if evidence.importedInFiles.length > 5 then base * 1.1
  else base

/-- `calculateThreatScore` (lines 104–133):
`Math.min(Math.round(score * 10), 100)`. -/
def calculateThreatScore (vulnerability : Vulnerability)
    (evidence : ImpactEvidence) : ℤ :=
  PackageAnalyzer.clampRound (threatScoreRaw vulnerability evidence * 10)

/-- `fixedRange.replace(/^[>=<^~]+/, '')` (line 144). -/
def stripRangeOperators (s : String) : String :=
  String.mk (s.data.dropWhile (fun c =>
    c = '>' || c = '=' || c = '<' || c = '^' || c = '~'))

/-- `determineRecommendedVersion` (lines 138–155): take the stripped
fixed-range literal if truthy and semver-valid, else
`semver.inc(current, 'patch') || current`. -/
def determineRecommendedVersion (vulnerability : Vulnerability) : String :=
  let minFixed := stripRangeOperators vulnerability.fixedVersions
  if !strIsEmpty minFixed && Semver.valid minFixed then minFixed
  else
    match Semver.parseSemVer vulnerability.currentVersion with
    | some v => Semver.renderSemVer (Semver.incPatch v)
    | none => vulnerability.currentVersion

/-- `generateThreatRationale` (lines 288–311). -/
def generateThreatRationale (vulnerability : Vulnerability)
    (evidence : ImpactEvidence) : String :=
  let parts : List String :=
    [severityUpper vulnerability.severity ++ " severity vulnerability",
     "in " ++ vulnerability.packageName ++ "@" ++ vulnerability.currentVersion] ++
    (if evidence.isAffected then
       ["actively used in codebase"] ++
       (if evidence.importedInFiles.length > 0 then
          ["(" ++ toString evidence.importedInFiles.length ++ " files)"]
        else [])
     else ["(not directly imported)"]) ++
    (match vulnerability.cvssScore with
     | some c =>
       if c ≠ 0 ∧ 7 < c then ["High CVSS score indicates significant risk"] else []
     | none => [])
  joinSep ". " parts

/-- `generateMockAnalysis` (lines 248–283), the deterministic backend.
`none` models the `semver.major` throw on an unparseable recommended or
current version (evaluated in that order by `!==`). -/
def generateMockAnalysis (vulnerability : Vulnerability)
    (evidence : ImpactEvidence) (recommendedVersion : String) :
    Option (PlanAnalysis × PlanMigration) :=
  match Semver.parseSemVer recommendedVersion,
      Semver.parseSemVer vulnerability.currentVersion with
  | some rv, some cv =>
    let isBreaking := rv.major != cv.major
    some
      ({ threatScore := calculateThreatScore vulnerability evidence
         threatRationale := generateThreatRationale vulnerability evidence
         evidence := evidence.reason
         recommendedVersion := recommendedVersion
         confidence := if evidence.isAffected then "high" else "medium" },
       { breakingChanges :=
           if isBreaking then
             ["Major version bump from " ++ vulnerability.currentVersion ++
               " to " ++ recommendedVersion ++ " may include breaking changes"]
           else ["Patch version bump - should be backwards compatible"]
         migrationSteps :=
           ["Update " ++ vulnerability.packageName ++ " from " ++
              vulnerability.currentVersion ++ " to " ++ recommendedVersion,
            "Run npm install to update lockfile",
            "Run test suite to verify functionality",
            "Check for any deprecation warnings"]
         testChecklist :=
           ["Unit tests pass",
            "Integration tests pass",
            "No new console warnings",
            "Application starts successfully"]
         rollbackPlan :=
           "If issues occur, revert to " ++ vulnerability.currentVersion ++
             " by reverting the commit and running npm install" })
  | _, _ => none

/-- The fields of the JSON object a successful reasoning-backend response
parses to. A field is `none` when absent or JavaScript-falsy, matching the
`llmResult.field || fallback` reads of lines 220–233. -/
structure LLMFields where
  threatScore : Option ℤ
  threatRationale : Option String
  evidence : Option String
  confidence : Option String
  breakingChanges : Option (List String)
  migrationSteps : Option (List String)
  testChecklist : Option (List String)
  rollbackPlan : Option String
deriving DecidableEq

/-- Outcome of the OpenRouter network call made by `callLLM`
(lines 160–243). The first four constructors are exactly the failure modes
in which the source throws inside its `try` block and falls back. -/
inductive LLMResponse
  | transportError
  | httpError (status : Nat) (body : String)
  | okMissingContent
  | okMalformedJson (raw : String)
  | okParsed (fields : LLMFields)
deriving DecidableEq

def LLMResponse.isFailure : LLMResponse → Bool
  | .okParsed _ => false
  | _ => true

/-- `callLLM` (lines 160–243): on a parsed response, fill each block field
from the JSON with the deterministic fallback for falsy fields; on any
failure (transport error, non-2xx, missing content, malformed JSON) the
`catch` returns `generateMockAnalysis` on the same arguments. -/
def callLLM (response : LLMResponse) (vulnerability : Vulnerability)
    (evidence : ImpactEvidence) (recommendedVersion : String) :
    Option (PlanAnalysis × PlanMigration) :=
  match response with
  | .okParsed f =>
    some
      ({ threatScore := f.threatScore.getD (calculateThreatScore vulnerability evidence)
         threatRationale :=
           f.threatRationale.getD (generateThreatRationale vulnerability evidence)
         evidence := f.evidence.getD evidence.reason
         recommendedVersion := recommendedVersion
         confidence :=
           f.confidence.getD (if evidence.isAffected then "high" else "medium") },
       { breakingChanges := f.breakingChanges.getD []
         migrationSteps := f.migrationSteps.getD []
         testChecklist := f.testChecklist.getD []
         rollbackPlan := f.rollbackPlan.getD
           ("Revert to " ++ vulnerability.currentVersion ++ " if issues occur") })
  | _ => generateMockAnalysis vulnerability evidence recommendedVersion

/-- `analyze` (lines 28–72). `useLLM` is the constructor's API-key check;
`llmModel` is `OPENROUTER_CONFIG.model`. The returned plan's `llmModel`
metadata is `useLLM ? OPENROUTER_CONFIG.model : 'mock'` (line 68) — it
depends only on the flag, not on which backend actually produced the
blocks. -/
def analyze (useLLM : Bool) (llmModel : String) (response : LLMResponse)
    (vulnerability : Vulnerability) (importedFiles : List String) :
    Option PatchPlan :=
  let evidence := analyzeImpact vulnerability importedFiles
  let recommendedVersion := determineRecommendedVersion vulnerability
  let blocks :=
    if useLLM then callLLM response vulnerability evidence recommendedVersion
    else generateMockAnalysis vulnerability evidence recommendedVersion
  blocks.map (fun b =>
    { vulnerability := vulnerability
      evidence := evidence
      analysis := b.1
      migration := b.2
      llmModel := if useLLM then llmModel else "mock" })

end PatchAnalyzer

/-! ## `VulnerabilityMonitor` (`src/patchops/src/data-pipeline/scheduler.ts`)

`scanRepository` and `performFullScan` are modelled on the full-scan path
(the scan's vulnerability corpus is the `knownVulnerabilities` list passed
in by `performFullScan`). Per repository, the collaborator outcomes that
can differ are captured in `RepoEnv`:

* `manifest`: the parsed `dependencies`/`devDependencies` of the manifest,
  or `none` when the manifest fetch fails or the file is absent — both of
  which `parseManifest` catches internally, returning `[]`;
* `dbOk`: whether the persistence calls made inside `scanRepository`
  (`saveCriticalHits`, `saveScanResult`, `findVulnerabilities`) succeed.
  When one throws, `scanRepository`'s own `catch` returns the all-zero
  empty `ScanResult` (lines 649–664).

`triggerPatchWorkflow` failures are caught per hit (lines 622–628) and do
not change the `ScanResult`, so they are not modelled here. Timestamps are
omitted from `ScanResultCore`. -/

structure ScanResultCore where
  repositoryId : String
  packagesScanned : Nat
  vulnerabilitiesFound : Nat
  criticalHitsCount : Nat
  lowPriority : Nat
  criticalHits : List CriticalHit
deriving DecidableEq

structure RepoEnv where
  repositoryId : String
  manifestPath : String
  manifest : Option (List (String × String) × List (String × String))
  dbOk : Bool

namespace VulnerabilityMonitor

/-- The all-zero result of `scanRepository`'s `catch` (lines 653–663). -/
def emptyScanResult (repositoryId : String) : ScanResultCore :=
  { repositoryId := repositoryId
    packagesScanned := 0
    vulnerabilitiesFound := 0
    criticalHitsCount := 0
    lowPriority := 0
    criticalHits := [] }

/-- `scanRepository` (lines 595–665) with a provided corpus. On the
success path the result's `criticalHits`/`criticalHitsCount` hold only the
`CRITICAL_HIT`-level hits, `lowPriority` the rest, and
`vulnerabilitiesFound` is the length of the provided corpus — regardless
of whether the manifest was retrievable. -/
def scanRepository (env : RepoEnv) (corpus : List VulnerabilityIntelligence)
    (pm : PackageManager) (now : String) : ScanResultCore :=
  if !env.dbOk then emptyScanResult env.repositoryId
  else
    let packages :=
      match env.manifest with
      | none => []
      | some m => PackageAnalyzer.parseManifestPure env.manifestPath m.1 m.2
    let criticalHits := PackageAnalyzer.findCriticalHitsCore packages corpus pm now
    let newCriticalHits :=
      criticalHits.filter (fun h => h.impactLevel == ImpactLevel.CRITICAL_HIT)
    { repositoryId := env.repositoryId
      packagesScanned := packages.length
      vulnerabilitiesFound := corpus.length
      criticalHitsCount := newCriticalHits.length
      lowPriority := criticalHits.length - newCriticalHits.length
      criticalHits := newCriticalHits }

/-- The repository loop of `performFullScan` (lines 564–578): each
repository is scanned inside its own `try`/`catch`, so one repository's
outcome cannot affect another's; `scanRepository` itself never throws
(its body is wrapped in `try`/`catch`), and a failing
`updateRepositoryStatus` is caught after the result was already pushed. -/
def performFullScanCore (repos : List RepoEnv)
    (corpus : List VulnerabilityIntelligence) (pm : PackageManager)
    (now : String) : List ScanResultCore :=
  repos.map (fun r => scanRepository r corpus pm now)

inductive TickOutcome
  | skipped
  | ran
deriving DecidableEq, Repr

/-- The cron callback installed by `startMonitoring` (lines 502–516): when
a scan is still running it logs and returns (nothing is queued, and the
callback also catches any scan error), otherwise it runs a full scan. -/
def scheduledScanTick (isRunning : Bool) : TickOutcome :=
  if isRunning then .skipped else .ran

/-- The single-flight guard at the top of `performFullScan`
(lines 538–543): a direct (out-of-band) call while a cycle is running
**throws** `'Scan already in progress'` to its caller; otherwise the guard
is taken and the cycle proceeds. -/
def performFullScanEntry (isRunning : Bool) : Except String Unit :=
  if isRunning then .error "Scan already in progress" else .ok ()

/-- The PR guard of `triggerPatchWorkflow` (line 704):
`if (patchPlan.evidence.isAffected) { ...createPatchPR... }`. -/
def prPathTaken (plan : PatchPlan) : Bool := plan.evidence.isAffected

end VulnerabilityMonitor

/-! ## Spec-side usage detector (for the refinement claim C4)

The specification (§4.3) describes the usage detector as a text scan over
retrieved source files. The code's `searchForImports` takes no source tree
at all, so for comparison the spec's words are modelled here as a function
of an explicit source tree (list of `(path, content)` pairs). -/

/-- Modelled from the spec: "a match is recorded when the specifier equals
the package name or is a subpath of it (`name/subpath`)". -/
def specifierMatches (specifier packageName : String) : Bool :=
  specifier == packageName || charsStartWith (packageName ++ "/").data specifier.data

/-- Modelled from the spec: extract the module specifier of an
import/require-style statement — the text between the first pair of quote
characters on a line that begins with `import` or contains `require(`. -/
def extractQuoted (line : List Char) : Option String :=
  let isQuote := fun (c : Char) => c = '\x27' || c = '"'
  match line.dropWhile (fun c => !isQuote c) with
  | [] => none
  | _ :: rest =>
    let inner := rest.takeWhile (fun c => !isQuote c)
    if inner.length < rest.length then some (String.mk inner) else none

def containsSub (pat : List Char) : List Char → Bool
  | [] => pat.isEmpty
  | c :: cs => charsStartWith pat (c :: cs) || containsSub pat cs

def lineImportSpecifier (line : List Char) : Option String :=
  if charsStartWith "import ".data (trimChars line) ||
      containsSub "require(".data line then
    extractQuoted line
  else none

/-- Modelled from the spec: "scan each file's text for import/require-style
statements capturing a module specifier". -/
def specFileImports (content packageName : String) : Bool :=
  (splitOnCh '\n' content.data).any (fun line =>
    match lineImportSpecifier line with
    | some spec => specifierMatches spec packageName
    | none => false)

/-- Modelled from the spec: the usage detector's match over a source
tree. -/
def specUsageMatch (tree : List (String × String)) (packageName : String) : Bool :=
  tree.any (fun f => specFileImports f.2 packageName)

/-! ## Concrete sample data for the claim witnesses and counterexamples -/

def c1Vuln : VulnerabilityIntelligence :=
  { id := "CVE-2021-23337"
    packageName := "lodash"
    ecosystem := "npm"
    severity := .high
    cvssScore := none
    affectedVersions := "<4.17.21"
    fixedVersions := ">=4.17.21"
    isZeroDay := false
    exploitAvailable := none
    isKEV := none }

def c1Pkg : PackageInfo :=
  { name := "lodash"
    version := "^4.17.15"
    ecosystem := "npm"
    isDirect := true
    isTransitive := false
    manifestFile := "package.json" }

def c1Hit : CriticalHit :=
  PackageAnalyzer.criticalHitFor (c1Pkg, c1Vuln)
    (PackageAnalyzer.analyzePackageImports "lodash" .npm "2026-10-11")

def c3Vuln : VulnerabilityIntelligence :=
  { id := "GHSA-4w2v-q235-vp99"
    packageName := "axios"
    ecosystem := "npm"
    severity := .critical
    cvssScore := none
    affectedVersions := "<0.21.1"
    fixedVersions := ">=0.21.1"
    isZeroDay := true
    exploitAvailable := some true
    isKEV := some true }

def c3Pkg : PackageInfo :=
  { name := "axios"
    version := "0.19.0"
    ecosystem := "npm"
    isDirect := true
    isTransitive := false
    manifestFile := "package.json" }

def c3Usage : PackageUsage :=
  { packageName := "axios"
    isImported := true
    importFiles := ["src/index.js"]
    importPatterns := ["import axios"]
    usageCount := 7
    lastAnalyzed := "2026-10-11" }

def c3LegacyVuln : Vulnerability :=
  { id := "GHSA-4w2v-q235-vp99"
    packageName := "axios"
    currentVersion := "0.19.0"
    severity := .critical
    cvssScore := none
    description := "SSRF in axios"
    affectedVersions := "<0.21.1"
    fixedVersions := ">=0.21.1" }

def c3Evidence : ImpactEvidence :=
  PatchAnalyzer.analyzeImpact c3LegacyVuln ["src/index.js"]

def c5Vuln : VulnerabilityIntelligence :=
  { id := "OSV-2026-0001"
    packageName := "tinylib"
    ecosystem := "npm"
    severity := .low
    cvssScore := some (1/100)
    affectedVersions := "<1.0.1"
    fixedVersions := ">=1.0.1"
    isZeroDay := false
    exploitAvailable := none
    isKEV := none }

def c5Pkg : PackageInfo :=
  { name := "tinylib"
    version := "1.0.0"
    ecosystem := "npm"
    isDirect := false
    isTransitive := true
    manifestFile := "package-lock.json" }

def c5UsageImported : PackageUsage :=
  { packageName := "tinylib"
    isImported := true
    importFiles := []
    importPatterns := []
    usageCount := 0
    lastAnalyzed := "2026-10-11" }

def c5UsageNotImported : PackageUsage :=
  { c5UsageImported with isImported := false }

def c5WVuln : VulnerabilityIntelligence :=
  { id := "GHSA-p6mc-m468-83gw"
    packageName := "lodash"
    ecosystem := "npm"
    severity := .medium
    cvssScore := none
    affectedVersions := "<4.17.20"
    fixedVersions := ">=4.17.20"
    isZeroDay := false
    exploitAvailable := some true
    isKEV := none }

def c5WPkg : PackageInfo :=
  { name := "lodash"
    version := "4.17.15"
    ecosystem := "npm"
    isDirect := true
    isTransitive := false
    manifestFile := "package.json" }

def c6Vuln : Vulnerability :=
  { id := "CVE-2020-8203"
    packageName := "axios"
    currentVersion := "0.19.0"
    severity := .high
    cvssScore := none
    description := "Server-side request forgery in axios"
    affectedVersions := "<0.21.1"
    fixedVersions := ">=0.21.1" }

/-- Modelled from the spec (§4.6), for comparison with
`determineRecommendedVersion`: "strip range-operator prefixes from the
fixed-version range and take the resulting literal version if valid;
otherwise fall back to incrementing the current version's patch
component". -/
def specRecommendedVersion (current fixedRange : String) : String :=
  let literal := PatchAnalyzer.stripRangeOperators fixedRange
  if Semver.valid literal then literal
  else
    match Semver.parseSemVer current with
    | some v => Semver.renderSemVer (Semver.incPatch v)
    | none => current

def c7Vuln : Vulnerability :=
  { id := "CVE-2020-28168"
    packageName := "axios"
    currentVersion := "0.19.0"
    severity := .high
    cvssScore := some (15/2)
    description := "Server-side request forgery in axios"
    affectedVersions := "<0.21.1"
    fixedVersions := ">=0.21.1" }

def c8Vuln : VulnerabilityIntelligence :=
  { id := "CVE-2021-3749"
    packageName := "axios"
    ecosystem := "npm"
    severity := .high
    cvssScore := none
    affectedVersions := "<0.21.1"
    fixedVersions := ">=0.21.1"
    isZeroDay := false
    exploitAvailable := none
    isKEV := none }

def c8FailEnv : RepoEnv :=
  { repositoryId := "acme/failing-repo"
    manifestPath := "package.json"
    manifest := none
    dbOk := true }

def c8OkEnv : RepoEnv :=
  { repositoryId := "acme/healthy-repo"
    manifestPath := "package.json"
    manifest := some ([("axios", "^0.19.0")], [])
    dbOk := true }

def c8DbFailEnv : RepoEnv :=
  { repositoryId := "acme/db-broken-repo"
    manifestPath := "package.json"
    manifest := some ([("axios", "^0.19.0")], [])
    dbOk := false }

def c10Vuln : Vulnerability :=
  { id := "CVE-2019-10744"
    packageName := "lodash"
    currentVersion := "4.17.11"
    severity := .critical
    cvssScore := none
    description := "Prototype pollution in lodash"
    affectedVersions := "<4.17.12"
    fixedVersions := ">=4.17.12" }

def c10LowConfFields : PatchAnalyzer.LLMFields :=
  { threatScore := some 42
    threatRationale := some "model-assessed moderate risk"
    evidence := some "weak usage signal"
    confidence := some "low"
    breakingChanges := some ["_.defaultsDeep behaviour change"]
    migrationSteps := some ["upgrade lodash"]
    testChecklist := some ["run unit tests"]
    rollbackPlan := some "revert the upgrade commit" }

/-! ## Helper lemmas -/

theorem round_nonneg_of_nonneg {q : ℚ} (h : 0 ≤ q) : 0 ≤ round q := by
  rw [round_eq]
  exact Int.le_floor.mpr (by push_cast; linarith)

theorem clampRound_nonneg {q : ℚ} (h : 0 ≤ q) : 0 ≤ PackageAnalyzer.clampRound q :=
  le_min (round_nonneg_of_nonneg h) (by norm_num)

theorem clampRound_le_100 (q : ℚ) : PackageAnalyzer.clampRound q ≤ 100 :=
  min_le_right _ _

theorem clampRound_mono {a b : ℚ} (h : a ≤ b) :
    PackageAnalyzer.clampRound a ≤ PackageAnalyzer.clampRound b := by
  refine min_le_min ?_ le_rfl
  rw [round_eq, round_eq]
  exact Int.floor_le_floor (by linarith)

theorem severityBaseScore_nonneg (s : Severity) :
    0 ≤ PackageAnalyzer.severityBaseScore s := by
  cases s <;> norm_num [PackageAnalyzer.severityBaseScore]

theorem severityApproxCvss_nonneg (s : Severity) :
    0 ≤ PatchAnalyzer.severityApproxCvss s := by
  cases s <;> norm_num [PatchAnalyzer.severityApproxCvss]

theorem threatScoreRaw_nonneg (vuln : VulnerabilityIntelligence)
    (pkg : PackageInfo) (usage : PackageUsage)
    (h : ∀ c, vuln.cvssScore = some c → 0 ≤ c) :
    0 ≤ PackageAnalyzer.threatScoreRaw vuln pkg usage := by
  have hcount : (0 : ℚ) ≤ (usage.usageCount : ℚ) := Nat.cast_nonneg _
  have hsev := severityBaseScore_nonneg vuln.severity
  have hea := vuln.exploitAvailable
  cases hc : vuln.cvssScore with
  | none =>
    by_cases he : vuln.exploitAvailable = some true <;>
      cases himp : usage.isImported <;> cases hd : pkg.isDirect <;>
      cases hz : vuln.isZeroDay <;>
      simp only [PackageAnalyzer.threatScoreRaw, hc, himp, hd, hz, he,
        Bool.false_eq_true, if_false, if_true, if_pos, if_neg, not_false_iff] <;>
      nlinarith [hsev, hcount]
  | some c =>
    have hc0 : 0 ≤ c := h c hc
    by_cases hz0 : c = 0 <;>
      by_cases he : vuln.exploitAvailable = some true <;>
      cases himp : usage.isImported <;> cases hd : pkg.isDirect <;>
      cases hz : vuln.isZeroDay <;>
      simp only [PackageAnalyzer.threatScoreRaw, hc, hz0, himp, hd, hz, he,
        Bool.false_eq_true, if_false, if_true, if_pos, if_neg, not_false_iff] <;>
      nlinarith [hsev, hcount, hc0]

theorem patchThreatScoreRaw_nonneg (vulnerability : Vulnerability)
    (evidence : ImpactEvidence)
    (h : ∀ c, vulnerability.cvssScore = some c → 0 ≤ c) :
    0 ≤ PatchAnalyzer.threatScoreRaw vulnerability evidence := by
  have hsev := severityApproxCvss_nonneg vulnerability.severity
  cases hc : vulnerability.cvssScore with
  | none =>
    by_cases hl : evidence.importedInFiles.length > 5 <;>
      cases ha : evidence.isAffected <;>
      simp only [PatchAnalyzer.threatScoreRaw, hc, hl, ha, Bool.not_false,
        Bool.not_true, Bool.false_eq_true, if_false, if_true] <;>
      nlinarith [hsev]
  | some c =>
    have hc0 : 0 ≤ c := h c hc
    by_cases hz0 : c = 0 <;>
      by_cases hl : evidence.importedInFiles.length > 5 <;>
      cases ha : evidence.isAffected <;>
      simp only [PatchAnalyzer.threatScoreRaw, hc, hz0, hl, ha, Bool.not_false,
        Bool.not_true, Bool.false_eq_true, if_false, if_true] <;>
      nlinarith [hsev, hc0]

theorem mem_insertByScore (h x : CriticalHit) (l : List CriticalHit) :
    x ∈ PackageAnalyzer.insertByScore h l ↔ x = h ∨ x ∈ l := by
  induction l with
  | nil => simp [PackageAnalyzer.insertByScore]
  | cons y ys ih =>
    simp only [PackageAnalyzer.insertByScore]
    split
    · simp [or_comm, or_assoc, or_left_comm]
    · simp only [List.mem_cons, ih]
      tauto

theorem mem_sortByThreatScoreDesc (x : CriticalHit) (l : List CriticalHit) :
    x ∈ PackageAnalyzer.sortByThreatScoreDesc l ↔ x ∈ l := by
  induction l with
  | nil => simp [PackageAnalyzer.sortByThreatScoreDesc]
  | cons y ys ih =>
    show x ∈ PackageAnalyzer.insertByScore y (PackageAnalyzer.sortByThreatScoreDesc ys) ↔ _
    rw [mem_insertByScore, ih]
    simp

theorem impactLevel_criticalHitFor (pr : PackageInfo × VulnerabilityIntelligence)
    (u : PackageUsage) :
    ((PackageAnalyzer.criticalHitFor pr u).impactLevel = ImpactLevel.CRITICAL_HIT ↔
      (PackageAnalyzer.criticalHitFor pr u).usage.isImported = true) := by
  cases hu : u.isImported <;> simp [PackageAnalyzer.criticalHitFor, hu]

/-- The hit-construction fold only ever appends `criticalHitFor` objects,
so any property of those objects holds of every element. -/
theorem mem_buildCriticalHits_aux (usages : List PackageUsage)
    (pairs : List (PackageInfo × VulnerabilityIntelligence))
    (acc : List CriticalHit) (x : CriticalHit)
    (hacc : ∀ y ∈ acc,
      (y.impactLevel = ImpactLevel.CRITICAL_HIT ↔ y.usage.isImported = true))
    (hx : x ∈ pairs.foldl
      (fun acc pr =>
        match usages.find? (fun u => u.packageName == pr.1.name) with
        | none => acc
        | some usage => acc ++ [PackageAnalyzer.criticalHitFor pr usage])
      acc) :
    (x.impactLevel = ImpactLevel.CRITICAL_HIT ↔ x.usage.isImported = true) := by
  induction pairs generalizing acc with
  | nil => exact hacc x hx
  | cons pr prs ih =>
    rw [List.foldl_cons] at hx
    refine ih _ ?_ hx
    cases hfind : usages.find? (fun u => u.packageName == pr.1.name) with
    | none => simpa [hfind] using hacc
    | some usage =>
      intro y hy
      simp only [hfind, List.mem_append, List.mem_singleton] at hy
      rcases hy with hy | hy
      · exact hacc y hy
      · rw [hy]; exact impactLevel_criticalHitFor pr usage

theorem mem_buildCriticalHits (usages : List PackageUsage)
    (pairs : List (PackageInfo × VulnerabilityIntelligence)) (x : CriticalHit)
    (hx : x ∈ PackageAnalyzer.buildCriticalHits pairs usages) :
    (x.impactLevel = ImpactLevel.CRITICAL_HIT ↔ x.usage.isImported = true) :=
  mem_buildCriticalHits_aux usages pairs [] x (by simp) hx

/-! ## C1 -/

/-- C1: for every `CriticalHit` produced by `findCriticalHits` (modelled by
its pure core over the parsed packages), the `impactLevel` field is
`CRITICAL_HIT` iff the hit's usage record has `isImported = true`, and
`LOW_PRIORITY` otherwise; it is derived from no other input. -/
theorem c1_impactLevel_iff_imported (packages : List PackageInfo)
    (vulnerabilities : List VulnerabilityIntelligence) (pm : PackageManager)
    (now : String) (hit : CriticalHit)
    (h : hit ∈ PackageAnalyzer.findCriticalHitsCore packages vulnerabilities pm now) :
    (hit.impactLevel = ImpactLevel.CRITICAL_HIT ↔ hit.usage.isImported = true) := by
  simp only [PackageAnalyzer.findCriticalHitsCore] at h
  split at h
  · simp at h
  · rw [mem_sortByThreatScoreDesc] at h
    exact mem_buildCriticalHits _ _ _ h

theorem c1_impactLevel_iff_imported_witness :
    c1Hit ∈ PackageAnalyzer.findCriticalHitsCore [c1Pkg] [c1Vuln] .npm "2026-10-11" ∧
    (c1Hit.impactLevel = ImpactLevel.CRITICAL_HIT ↔ c1Hit.usage.isImported = true) :=
  have hm : c1Hit ∈ PackageAnalyzer.findCriticalHitsCore [c1Pkg] [c1Vuln] .npm "2026-10-11" :=
    List.mem_singleton_self c1Hit
  ⟨hm, c1_impactLevel_iff_imported _ _ _ _ _ hm⟩

/-! ## C2 -/

/-- C2: what `isVersionAffected` actually returns on unparseable input.
The claim (and the source's own `// Err on the side of caution` comment)
expects `true`; because `semver.satisfies` swallows its parse errors and
returns `false` instead of throwing, the `catch { return true }` is dead
code and the function returns `false` — "not affected" — both for an
unparseable version and for an unparseable range. The third conjunct
confirms that the version really is unparseable after prefix cleaning. -/
theorem c2_unparseable_version_returns_false :
    PackageAnalyzer.isVersionAffected "not-a-version" ">=1.0.0" = false ∧
    PackageAnalyzer.isVersionAffected "1.2.3" "not a range" = false ∧
    Semver.parseSemVer (PackageAnalyzer.cleanVersionStr "not-a-version") = none := by
  decide

/-! ## C3 -/

/-- C3: for arbitrary flag combinations and any non-negative CVSS score
(or any severity tier when no score is present), both scoring
implementations — the per-repository scorer of `PackageAnalyzer` and the
single-vulnerability scorer of `PatchAnalyzer` — produce an integer threat
score in `[0, 100]`. -/
theorem c3_threat_score_in_0_100 (vuln : VulnerabilityIntelligence)
    (pkg : PackageInfo) (usage : PackageUsage) (vulnerability : Vulnerability)
    (evidence : ImpactEvidence)
    (h1 : ∀ c, vuln.cvssScore = some c → 0 ≤ c)
    (h2 : ∀ c, vulnerability.cvssScore = some c → 0 ≤ c) :
    (0 ≤ PackageAnalyzer.calculateThreatScore vuln pkg usage ∧
      PackageAnalyzer.calculateThreatScore vuln pkg usage ≤ 100) ∧
    (0 ≤ PatchAnalyzer.calculateThreatScore vulnerability evidence ∧
      PatchAnalyzer.calculateThreatScore vulnerability evidence ≤ 100) := by
  refine ⟨⟨clampRound_nonneg (threatScoreRaw_nonneg vuln pkg usage h1),
      clampRound_le_100 _⟩, ⟨clampRound_nonneg ?_, clampRound_le_100 _⟩⟩
  have hr := patchThreatScoreRaw_nonneg vulnerability evidence h2
  nlinarith [hr]

theorem c3_threat_score_in_0_100_witness :
    (0 ≤ PackageAnalyzer.calculateThreatScore c3Vuln c3Pkg c3Usage ∧
      PackageAnalyzer.calculateThreatScore c3Vuln c3Pkg c3Usage ≤ 100) ∧
    (0 ≤ PatchAnalyzer.calculateThreatScore c3LegacyVuln c3Evidence ∧
      PatchAnalyzer.calculateThreatScore c3LegacyVuln c3Evidence ≤ 100) :=
  c3_threat_score_in_0_100 c3Vuln c3Pkg c3Usage c3LegacyVuln c3Evidence
    (fun c hc => Option.noConfusion hc) (fun c hc => Option.noConfusion hc)

/-! ## C5 -/

/-- C5 counterexample: for a vulnerability with CVSS score `0.01` and two
usage records identical except for `isImported`, both raw scores
(`0.015` and `0.003`) round to `0`, so the `imported` score is **not**
strictly higher — the claim's strict inequality fails. -/
theorem c5_counterexample :
    PackageAnalyzer.calculateThreatScore c5Vuln c5Pkg c5UsageNotImported = 0 ∧
    PackageAnalyzer.calculateThreatScore c5Vuln c5Pkg c5UsageImported = 0 ∧
    ¬ (PackageAnalyzer.calculateThreatScore c5Vuln c5Pkg c5UsageNotImported <
        PackageAnalyzer.calculateThreatScore c5Vuln c5Pkg c5UsageImported) := by
  have hraw1 : PackageAnalyzer.threatScoreRaw c5Vuln c5Pkg c5UsageNotImported = 3/100 := by
    norm_num [PackageAnalyzer.threatScoreRaw, c5Vuln, c5Pkg, c5UsageNotImported,
      c5UsageImported, reduceCtorEq] <;> decide
  have hraw2 : PackageAnalyzer.threatScoreRaw c5Vuln c5Pkg c5UsageImported = 15/100 := by
    norm_num [PackageAnalyzer.threatScoreRaw, c5Vuln, c5Pkg, c5UsageImported,
      reduceCtorEq] <;> decide
  have h1 : PackageAnalyzer.calculateThreatScore c5Vuln c5Pkg c5UsageNotImported = 0 := by
    rw [PackageAnalyzer.calculateThreatScore, hraw1]
    norm_num [PackageAnalyzer.clampRound, round_eq]
  have h2 : PackageAnalyzer.calculateThreatScore c5Vuln c5Pkg c5UsageImported = 0 := by
    rw [PackageAnalyzer.calculateThreatScore, hraw2]
    norm_num [PackageAnalyzer.clampRound, round_eq]
  exact ⟨h1, h2, by rw [h1, h2]; exact lt_irrefl 0⟩

/-- C5 amended: for a fixed vulnerability and package, a usage record with
`isImported = false` yields a threat score **less than or equal to** (not
always strictly lower than) the score of the otherwise identical record
with `isImported = true`: rounding can make both scores equal (and the cap
at 100 can as well), but the unimported score never exceeds the imported
one, provided the CVSS score (when present) is non-negative. -/
theorem c5_amended_unimported_le_imported (vuln : VulnerabilityIntelligence)
    (pkg : PackageInfo) (pname : String) (files pats : List String) (cnt : Nat)
    (ts : String) (h : ∀ c, vuln.cvssScore = some c → 0 ≤ c) :
    PackageAnalyzer.calculateThreatScore vuln pkg
        ⟨pname, false, files, pats, cnt, ts⟩ ≤
      PackageAnalyzer.calculateThreatScore vuln pkg
        ⟨pname, true, files, pats, cnt, ts⟩ := by
  apply clampRound_mono
  have hcount : (0 : ℚ) ≤ (cnt : ℚ) := Nat.cast_nonneg _
  have hsev := severityBaseScore_nonneg vuln.severity
  cases hc : vuln.cvssScore with
  | none =>
    by_cases he : vuln.exploitAvailable = some true <;>
      cases hd : pkg.isDirect <;> cases hz : vuln.isZeroDay <;>
      simp only [PackageAnalyzer.threatScoreRaw, hc, hd, hz, he,
        Bool.false_eq_true, if_false, if_true, not_false_iff] <;>
      nlinarith [hsev, hcount]
  | some c =>
    have hc0 : 0 ≤ c := h c hc
    by_cases hz0 : c = 0 <;>
      by_cases he : vuln.exploitAvailable = some true <;>
      cases hd : pkg.isDirect <;> cases hz : vuln.isZeroDay <;>
      simp only [PackageAnalyzer.threatScoreRaw, hc, hz0, hd, hz, he,
        Bool.false_eq_true, if_false, if_true, not_false_iff] <;>
      nlinarith [hsev, hcount, hc0]

theorem c5_amended_unimported_le_imported_witness :
    PackageAnalyzer.calculateThreatScore c5WVuln c5WPkg
        ⟨"lodash", false, ["src/a.js"], ["import lodash"], 3, "2026-10-11"⟩ ≤
      PackageAnalyzer.calculateThreatScore c5WVuln c5WPkg
        ⟨"lodash", true, ["src/a.js"], ["import lodash"], 3, "2026-10-11"⟩ :=
  c5_amended_unimported_le_imported c5WVuln c5WPkg "lodash" ["src/a.js"]
    ["import lodash"] 3 "2026-10-11" (fun c hc => Option.noConfusion hc)

/-! ## C4 -/

theorem dedupFirst_eq_nil_iff (l : List String) :
    PackageAnalyzer.dedupFirst l = [] ↔ l = [] := by
  cases l with
  | nil => simp [PackageAnalyzer.dedupFirst, PackageAnalyzer.dedupFirstAux]
  | cons x xs =>
    simp [PackageAnalyzer.dedupFirst, PackageAnalyzer.dedupFirstAux, List.contains]

theorem bang_isEmpty_iff_dedup_ne_nil (l : List String) :
    ((!l.isEmpty) = true ↔ PackageAnalyzer.dedupFirst l ≠ []) := by
  rw [Ne, dedupFirst_eq_nil_iff]
  cases l <;> simp

/-- C4 counterexample: the code's usage detector takes no source tree at
all — it reports the package `vue` as imported (with two simulated file
paths) for **every** repository, including one with no source files,
while the spec-described text scan over the empty source tree records no
match. So "a match is recorded exactly when a file's text contains a
matching import/require statement" is false of the code. -/
theorem c4_counterexample :
    (PackageAnalyzer.analyzePackageImports "vue" .npm "2026-10-11").isImported = true ∧
    (PackageAnalyzer.analyzePackageImports "vue" .npm "2026-10-11").importFiles =
      ["src/index.js", "src/utils/vue.js"] ∧
    specUsageMatch [] "vue" = false := by
  decide

/-- C4 amended: the usage detector records a match for a package exactly
when the package name is in the hard-coded allow-list
`{axios, lodash, express, react, vue}` (the repository's files are never
consulted); the `imported` flag of the resulting `UsageRecord` is `true`
iff the deduplicated matched-file list is non-empty. -/
theorem c4_amended_allowlist_detector (p : String) (pm : PackageManager)
    (now : String) :
    ((PackageAnalyzer.searchForImports p).found =
      PackageAnalyzer.knownPackages.contains p) ∧
    ((PackageAnalyzer.analyzePackageImports p pm now).isImported =
      PackageAnalyzer.knownPackages.contains p) ∧
    ((PackageAnalyzer.analyzePackageImports p pm now).isImported = true ↔
      (PackageAnalyzer.analyzePackageImports p pm now).importFiles ≠ []) := by
  refine ⟨?_, ?_, ?_⟩
  · by_cases hk : p ∈ PackageAnalyzer.knownPackages <;>
      simp [PackageAnalyzer.searchForImports, hk, List.elem_eq_mem]
  · by_cases hk : p ∈ PackageAnalyzer.knownPackages <;> cases pm <;>
      simp [PackageAnalyzer.analyzePackageImports,
        PackageAnalyzer.getSourceFilePatterns, PackageAnalyzer.searchForImports,
        hk, List.elem_eq_mem]
  · exact bang_isEmpty_iff_dedup_ne_nil _

/-! ## C6 -/

/-- C6 counterexample: when the reasoning backend fails (HTTP 500), the
plan `analyze` returns carries `llmModel` metadata naming the configured
reasoning model, while the plan the deterministic backend alone produces
carries `llmModel = "mock"` — so the two plans are **not** structurally
identical in the metadata identifying the producing backend. -/
theorem c6_counterexample :
    (PatchAnalyzer.analyze true "openai/gpt-4o-mini"
        (.httpError 500 "Internal Server Error") c6Vuln ["src/index.js"]).map
      PatchPlan.llmModel = some "openai/gpt-4o-mini" ∧
    (PatchAnalyzer.analyze false "openai/gpt-4o-mini"
        (.httpError 500 "Internal Server Error") c6Vuln ["src/index.js"]).map
      PatchPlan.llmModel = some "mock" ∧
    ("openai/gpt-4o-mini" : String) ≠ "mock" := by
  decide

/-- C6 amended: on every reasoning-backend failure (transport error,
non-2xx response, missing content, malformed JSON), `analyze` does not
propagate the failure: it returns a plan whose analysis and migration
blocks are identical to those the deterministic backend alone would
produce for the same inputs — but the plan's backend-identifying metadata
still names the configured reasoning model rather than the deterministic
backend. -/
theorem c6_amended_transparent_fallback (mdl : String)
    (resp : PatchAnalyzer.LLMResponse) (v : Vulnerability)
    (files : List String) (h : resp.isFailure = true) :
    ((PatchAnalyzer.analyze true mdl resp v files).map
        (fun p => (p.analysis, p.migration)) =
      (PatchAnalyzer.analyze false mdl resp v files).map
        (fun p => (p.analysis, p.migration))) ∧
    (∀ p ∈ PatchAnalyzer.analyze true mdl resp v files, p.llmModel = mdl) ∧
    (∀ p ∈ PatchAnalyzer.analyze false mdl resp v files, p.llmModel = "mock") := by
  have hcall : PatchAnalyzer.callLLM resp v (PatchAnalyzer.analyzeImpact v files)
      (PatchAnalyzer.determineRecommendedVersion v) =
      PatchAnalyzer.generateMockAnalysis v (PatchAnalyzer.analyzeImpact v files)
        (PatchAnalyzer.determineRecommendedVersion v) := by
    cases resp with
    | okParsed f => simp [PatchAnalyzer.LLMResponse.isFailure] at h
    | transportError => rfl
    | httpError s b => rfl
    | okMissingContent => rfl
    | okMalformedJson r => rfl
  cases hm : PatchAnalyzer.generateMockAnalysis v (PatchAnalyzer.analyzeImpact v files)
      (PatchAnalyzer.determineRecommendedVersion v) with
  | none =>
    refine ⟨?_, ?_, ?_⟩ <;>
      simp [PatchAnalyzer.analyze, hcall, hm]
  | some b =>
    refine ⟨?_, ?_, ?_⟩ <;>
      simp [PatchAnalyzer.analyze, hcall, hm]

theorem c6_amended_transparent_fallback_witness :
    PatchAnalyzer.LLMResponse.isFailure .transportError = true ∧
    ((PatchAnalyzer.analyze true "openai/gpt-4o-mini" .transportError c6Vuln
        ["src/index.js"]).map (fun p => (p.analysis, p.migration)) =
      (PatchAnalyzer.analyze false "openai/gpt-4o-mini" .transportError c6Vuln
        ["src/index.js"]).map (fun p => (p.analysis, p.migration))) :=
  ⟨by decide,
    (c6_amended_transparent_fallback "openai/gpt-4o-mini" .transportError c6Vuln
      ["src/index.js"] (by decide)).1⟩

/-! ## C7 -/

theorem valid_ne_empty {s : String} (h : Semver.valid s = true) :
    strIsEmpty s = false := by
  cases s with
  | mk data =>
    cases data with
    | nil => exact absurd h (by decide)
    | cons c cs => rfl

theorem mockBreakingNote_ne (a b : String) :
    ("Major version bump from " ++ a ++ " to " ++ b ++
        " may include breaking changes") ≠
      "Patch version bump - should be backwards compatible" := by
  intro hcontra
  have hlen := congrArg String.length hcontra
  rw [String.length_append, String.length_append, String.length_append,
    String.length_append] at hlen
  have e1 : ("Major version bump from ").length = 24 := rfl
  have e2 : (" to ").length = 4 := rfl
  have e3 : (" may include breaking changes").length = 29 := rfl
  have e4 : ("Patch version bump - should be backwards compatible").length = 51 := rfl
  rw [e1, e2, e3, e4] at hlen
  omega

/-- C7: (i) the recommended version is computed exactly as the spec
describes (strip range operators, take the literal if valid, else bump the
patch component); (ii) in particular, for current version `0.19.0` and
fixed range `>=0.21.1` the recommendation is `0.21.1`; (iii) the
deterministic plan's breaking-change note is the backwards-compatible
patch-bump note exactly when the recommended version's major equals the
current version's major; (iv) in the scenario of (ii) the note is the
backwards-compatible one. -/
theorem c7_recommended_version_and_breaking_note :
    (∀ v : Vulnerability, PatchAnalyzer.determineRecommendedVersion v =
      specRecommendedVersion v.currentVersion v.fixedVersions) ∧
    PatchAnalyzer.determineRecommendedVersion c7Vuln = "0.21.1" ∧
    (∀ (v : Vulnerability) (ev : ImpactEvidence) (rec : String)
        (rv cv : Semver.SemVer),
      Semver.parseSemVer rec = some rv →
      Semver.parseSemVer v.currentVersion = some cv →
      ((PatchAnalyzer.generateMockAnalysis v ev rec).map
          (fun b => b.2.breakingChanges) =
        some ["Patch version bump - should be backwards compatible"] ↔
        rv.major = cv.major)) ∧
    (PatchAnalyzer.generateMockAnalysis c7Vuln
        (PatchAnalyzer.analyzeImpact c7Vuln ["src/index.js"]) "0.21.1").map
      (fun b => b.2.breakingChanges) =
      some ["Patch version bump - should be backwards compatible"] := by
  refine ⟨?_, by decide, ?_, by decide⟩
  · intro v
    cases hv : Semver.valid (PatchAnalyzer.stripRangeOperators v.fixedVersions) with
    | true =>
      have hne := valid_ne_empty hv
      simp [PatchAnalyzer.determineRecommendedVersion, specRecommendedVersion, hv, hne]
    | false =>
      simp [PatchAnalyzer.determineRecommendedVersion, specRecommendedVersion, hv]
  · intro v ev rec rv cv hrec hcur
    simp only [PatchAnalyzer.generateMockAnalysis, hrec, hcur, Option.map_some]
    by_cases hmaj : rv.major = cv.major
    · simp [hmaj]
    · simp [hmaj, mockBreakingNote_ne v.currentVersion rec]

theorem c7_recommended_version_and_breaking_note_witness :
    ((PatchAnalyzer.generateMockAnalysis c7Vuln
        (PatchAnalyzer.analyzeImpact c7Vuln ["src/index.js"]) "0.21.1").map
      (fun b => b.2.breakingChanges) =
      some ["Patch version bump - should be backwards compatible"] ↔
      (Semver.SemVer.mk 0 21 1 []).major = (Semver.SemVer.mk 0 19 0 []).major) ∧
    PatchAnalyzer.determineRecommendedVersion c7Vuln = "0.21.1" :=
  ⟨c7_recommended_version_and_breaking_note.2.2.1 c7Vuln
      (PatchAnalyzer.analyzeImpact c7Vuln ["src/index.js"]) "0.21.1"
      ⟨0, 21, 1, []⟩ ⟨0, 19, 0, []⟩ (by decide) (by decide),
    c7_recommended_version_and_breaking_note.2.1⟩

/-! ## C8 -/

/-- C8 counterexample: a two-repository cycle over a one-vulnerability
corpus, where the first repository's manifest fetch fails and the second
succeeds. The failing repository's result is **not** the all-zero empty
`ScanResult` the claim requires: its `vulnerabilitiesFound` count is the
corpus size (1), because `parseManifest` catches the fetch failure and the
scan proceeds with zero packages. The healthy repository's result is fully
populated (1 package, 1 critical hit). -/
theorem c8_counterexample :
    (VulnerabilityMonitor.performFullScanCore [c8FailEnv, c8OkEnv] [c8Vuln] .npm
        "2026-10-11").map
      (fun r => (r.packagesScanned, r.vulnerabilitiesFound, r.criticalHitsCount)) =
      [(0, 1, 0), (1, 1, 1)] ∧
    VulnerabilityMonitor.scanRepository c8FailEnv [c8Vuln] .npm "2026-10-11" ≠
      VulnerabilityMonitor.emptyScanResult "acme/failing-repo" := by
  decide

/-- C8 amended: per-repository failure isolation holds — the cycle's
result list is exactly the independent per-repository results, and a
failure in one repository cannot affect another's entry. A repository
whose persistence calls fail degrades to the all-zero empty `ScanResult`;
a repository whose manifest fetch fails yields zero packages, zero
critical hits and an empty hit list, but its `vulnerabilitiesFound` count
is the size of the shared corpus (not zero). -/
theorem c8_amended_failure_isolation (repos : List RepoEnv)
    (corpus : List VulnerabilityIntelligence) (pm : PackageManager)
    (now : String) (env : RepoEnv) :
    ((VulnerabilityMonitor.performFullScanCore repos corpus pm now).length =
      repos.length) ∧
    (∀ i : Nat,
      (VulnerabilityMonitor.performFullScanCore repos corpus pm now).get? i =
        (repos.get? i).map
          (fun r => VulnerabilityMonitor.scanRepository r corpus pm now)) ∧
    (env.dbOk = false →
      VulnerabilityMonitor.scanRepository env corpus pm now =
        VulnerabilityMonitor.emptyScanResult env.repositoryId) ∧
    (env.manifest = none → env.dbOk = true →
      (VulnerabilityMonitor.scanRepository env corpus pm now).packagesScanned = 0 ∧
      (VulnerabilityMonitor.scanRepository env corpus pm now).criticalHitsCount = 0 ∧
      (VulnerabilityMonitor.scanRepository env corpus pm now).criticalHits = [] ∧
      (VulnerabilityMonitor.scanRepository env corpus pm now).vulnerabilitiesFound =
        corpus.length) := by
  refine ⟨?_, ?_, ?_, ?_⟩
  · simp [VulnerabilityMonitor.performFullScanCore]
  · intro i
    simp [VulnerabilityMonitor.performFullScanCore, List.get?_map]
  · intro h
    simp [VulnerabilityMonitor.scanRepository, h]
  · intro h1 h2
    have hempty : PackageAnalyzer.findCriticalHitsCore [] corpus pm now = [] := rfl
    refine ⟨?_, ?_, ?_, ?_⟩ <;>
      simp [VulnerabilityMonitor.scanRepository, h1, h2, hempty]

theorem c8_amended_failure_isolation_witness :
    (VulnerabilityMonitor.scanRepository c8DbFailEnv [c8Vuln] .npm "2026-10-11" =
      VulnerabilityMonitor.emptyScanResult "acme/db-broken-repo") ∧
    ((VulnerabilityMonitor.scanRepository c8FailEnv [c8Vuln] .npm
        "2026-10-11").packagesScanned = 0 ∧
      (VulnerabilityMonitor.scanRepository c8FailEnv [c8Vuln] .npm
        "2026-10-11").criticalHitsCount = 0 ∧
      (VulnerabilityMonitor.scanRepository c8FailEnv [c8Vuln] .npm
        "2026-10-11").criticalHits = [] ∧
      (VulnerabilityMonitor.scanRepository c8FailEnv [c8Vuln] .npm
        "2026-10-11").vulnerabilitiesFound = [c8Vuln].length) :=
  ⟨(c8_amended_failure_isolation [c8DbFailEnv] [c8Vuln] .npm "2026-10-11"
      c8DbFailEnv).2.2.1 rfl,
    (c8_amended_failure_isolation [c8FailEnv, c8OkEnv] [c8Vuln] .npm "2026-10-11"
      c8FailEnv).2.2.2 rfl rfl⟩

/-! ## C9 -/

/-- C9 counterexample: an out-of-band trigger — a direct call to
`performFullScan` — while a cycle is already running is **surfaced to the
caller as an error** (`throw new Error('Scan already in progress')`,
scheduler lines 539–541), not treated as a silent skip, contradicting the
claim that the condition "is not surfaced as an error to the triggering
caller" for any trigger. -/
theorem c9_counterexample :
    VulnerabilityMonitor.performFullScanEntry true =
      Except.error "Scan already in progress" := rfl

/-- C9 amended: while a cycle is running no second cycle starts and no
cycle is queued on either trigger path; the **scheduled** trigger is a
silent skip (logged, no error), but an **out-of-band** call to
`performFullScan` is rejected with the error `'Scan already in progress'`
surfaced to its caller. When no cycle is running, both paths start one. -/
theorem c9_amended_single_flight :
    VulnerabilityMonitor.scheduledScanTick true =
      VulnerabilityMonitor.TickOutcome.skipped ∧
    VulnerabilityMonitor.scheduledScanTick false =
      VulnerabilityMonitor.TickOutcome.ran ∧
    VulnerabilityMonitor.performFullScanEntry true =
      Except.error "Scan already in progress" ∧
    VulnerabilityMonitor.performFullScanEntry false = Except.ok () :=
  ⟨rfl, rfl, rfl, rfl⟩

/-! ## C10 -/

/-- C10 counterexample: `evidence.isAffected` is indeed always true, but
the plan's confidence is **not** always reported as `'high'`: a successful
reasoning-backend response that supplies `confidence: "low"` overrides the
evidence-driven default (`llmResult.confidence || ...`, analyzer
line 225). -/
theorem c10_counterexample :
    (PatchAnalyzer.analyze true "openai/gpt-4o-mini"
        (.okParsed c10LowConfFields) c10Vuln ["src/app.js"]).map
      (fun p => p.analysis.confidence) = some "low" ∧
    some "low" ≠ some "high" ∧
    (PatchAnalyzer.analyze true "openai/gpt-4o-mini"
        (.okParsed c10LowConfFields) c10Vuln ["src/app.js"]).map
      (fun p => p.evidence.isAffected) = some true := by
  decide

/-- C10 amended: for every vulnerability and importedFiles list (including
the empty list) the produced impact evidence has `isAffected = true`
(since `isDirectDependency` is unconditionally true), and the
remediation (pull-request) path guarded by `evidence.isAffected` is taken
for every produced plan; the confidence is `'high'` whenever the blocks
come from the deterministic backend — `useLLM` false or any reasoning
failure — or the reasoning response supplies no confidence value, while a
successful reasoning response may override it. -/
theorem c10_amended_always_affected (useLLM : Bool) (mdl : String)
    (resp : PatchAnalyzer.LLMResponse) (v : Vulnerability)
    (files : List String) :
    (PatchAnalyzer.analyzeImpact v files).isAffected = true ∧
    (∀ p ∈ PatchAnalyzer.analyze useLLM mdl resp v files,
      p.evidence.isAffected = true ∧ VulnerabilityMonitor.prPathTaken p = true) ∧
    ((useLLM = false ∨ resp.isFailure = true ∨
        (∀ f, resp = .okParsed f → f.confidence = none)) →
      ∀ p ∈ PatchAnalyzer.analyze useLLM mdl resp v files,
        p.analysis.confidence = "high") := by
  have haff : (PatchAnalyzer.analyzeImpact v files).isAffected = true := by
    simp [PatchAnalyzer.analyzeImpact]
  refine ⟨haff, ?_, ?_⟩
  · intro p hp
    rw [Option.mem_def] at hp
    simp only [PatchAnalyzer.analyze, Option.map_eq_some'] at hp
    obtain ⟨b, hb, hpb⟩ := hp
    subst hpb
    exact ⟨haff, haff⟩
  · intro hdet p hp
    rw [Option.mem_def] at hp
    simp only [PatchAnalyzer.analyze, Option.map_eq_some'] at hp
    obtain ⟨b, hb, hpb⟩ := hp
    subst hpb
    have hmock : ∀ a m, PatchAnalyzer.generateMockAnalysis v
        (PatchAnalyzer.analyzeImpact v files)
        (PatchAnalyzer.determineRecommendedVersion v) = some (a, m) →
        a.confidence = "high" := by
      intro a m hm
      simp only [PatchAnalyzer.generateMockAnalysis] at hm
      split at hm
      · simp only [haff, if_true, Option.some_inj] at hm
        have h2 := congrArg (fun x => x.1.confidence) hm
        dsimp only at h2
        exact h2.symm
      · exact Option.noConfusion hm
    cases husel : useLLM with
    | false =>
      rw [husel] at hb
      simp only [if_false, Bool.false_eq_true] at hb
      exact hmock b.1 b.2 hb
    | true =>
      rw [husel] at hb
      simp only [if_true] at hb
      cases hresp : resp with
      | okParsed f =>
        have hconf : f.confidence = none := by
          rcases hdet with hdet | hdet | hdet
          · rw [husel] at hdet; exact Bool.noConfusion hdet
          · rw [hresp] at hdet
            simp [PatchAnalyzer.LLMResponse.isFailure] at hdet
          · exact hdet f hresp
        rw [hresp] at hb
        simp only [PatchAnalyzer.callLLM, Option.some_inj] at hb
        rw [← hb]
        simp [hconf, haff]
      | transportError =>
        rw [hresp] at hb
        exact hmock b.1 b.2 hb
      | httpError s bo =>
        rw [hresp] at hb
        exact hmock b.1 b.2 hb
      | okMissingContent =>
        rw [hresp] at hb
        exact hmock b.1 b.2 hb
      | okMalformedJson r =>
        rw [hresp] at hb
        exact hmock b.1 b.2 hb

theorem c10_amended_always_affected_witness :
    (PatchAnalyzer.analyzeImpact c10Vuln []).isAffected = true ∧
    (∀ p ∈ PatchAnalyzer.analyze false "openai/gpt-4o-mini" .transportError
        c10Vuln [], p.analysis.confidence = "high") :=
  ⟨(c10_amended_always_affected false "openai/gpt-4o-mini" .transportError
      c10Vuln []).1,
    (c10_amended_always_affected false "openai/gpt-4o-mini" .transportError
      c10Vuln []).2.2 (Or.inl rfl)⟩
